import Mathlib

/-! Verification development for the SimpleProjectileMotion repository.

The development shallowly embeds the repository's four Python modules:
the real-time physics loop of Renderer.py, the launch configuration of
config.py, the CSV logger of logger.py and the analysis stage of graph.py.
Python floating-point arithmetic is idealised as exact rational arithmetic
for the integrator and the logger, and as real arithmetic where the source
applies trigonometric or square-root functions (config.py, graph.py). -/

namespace Projectile

/-! Renderer.py: constants and the per-frame physics update.

The renderer keeps the ball's state in pixel coordinates: `ball_bottom_x`
and `ball_bottom_y` are the pixel position of the bottom of the ball
(pygame's y axis grows downward), while `vx` and `vy` are world velocities
in meters per second. -/

/-- Window width in pixels (Renderer.py: `WIDTH, HEIGHT = 800, 600`). -/
def WIDTH : ℚ := 800

/-- Window height in pixels (Renderer.py: `WIDTH, HEIGHT = 800, 600`). -/
def HEIGHT : ℚ := 600

/-- Pixel row of the ground plane (Renderer.py: `GROUND_Y = HEIGHT - 100`). -/
def GROUND_Y : ℚ := HEIGHT - 100

/-- Pixels per world meter (Renderer.py: `PIXELS_PER_METER = HEIGHT / 10.0`). -/
def PIXELS_PER_METER : ℚ := HEIGHT / 10

/-- Gravitational acceleration in m/s², negative because it acts downward
(config.py: `Gravity = -9.81`). -/
def Gravity : ℚ := -981/100

/-- The mutable state of the game loop: pixel position of the ball's bottom
point and world-space velocity components (Renderer.py lines 29-36). -/
structure BallState where
  ball_bottom_x : ℚ
  ball_bottom_y : ℚ
  vx : ℚ
  vy : ℚ
  deriving DecidableEq, Repr

/-- The condition guarding the physics update (Renderer.py line 64:
`if ball_bottom_y < GROUND_Y or (vx != 0 or vy != 0):`). -/
def airborneGuard (s : BallState) : Prop :=
  s.ball_bottom_y < GROUND_Y ∨ (s.vx ≠ 0 ∨ s.vy ≠ 0)

instance (s : BallState) : Decidable (airborneGuard s) :=
  if h : s.ball_bottom_y < GROUND_Y ∨ (s.vx ≠ 0 ∨ s.vy ≠ 0) then .isTrue h else .isFalse h

/-- One pass of the game loop's physics update (Renderer.py lines 64-78):
while the guard holds, the vertical velocity is updated by gravity first,
then both pixel positions are advanced using the velocities (the y update
subtracts because pygame's y axis grows downward), and finally the ground
check clamps the state when the new bottom pixel reaches the ground row. -/
def frameStep (s : BallState) (delta_time : ℚ) : BallState :=
  if airborneGuard s then
    let vy1 := s.vy + Gravity * delta_time
    let bx1 := s.ball_bottom_x + s.vx * delta_time * PIXELS_PER_METER
    let by1 := s.ball_bottom_y - vy1 * delta_time * PIXELS_PER_METER
    if by1 ≥ GROUND_Y then
      { ball_bottom_x := bx1, ball_bottom_y := GROUND_Y, vx := 0, vy := 0 }
    else
      { ball_bottom_x := bx1, ball_bottom_y := by1, vx := s.vx, vy := vy1 }
  else s

/-- World-space horizontal position in meters recovered from the pixel state
(inverse of `ball_bottom_x = x * PIXELS_PER_METER`, Renderer.py line 35). -/
def worldX (s : BallState) : ℚ := s.ball_bottom_x / PIXELS_PER_METER

/-- World-space height in meters recovered from the pixel state (inverse of
`ball_bottom_y = GROUND_Y - y * PIXELS_PER_METER`, Renderer.py line 36). -/
def worldY (s : BallState) : ℚ := (GROUND_Y - s.ball_bottom_y) / PIXELS_PER_METER

/-- The initial ball state built by Renderer.py lines 29-36 from an initial
height and initial velocity components: `x = 0`, `y = InitialHeight`,
converted to pixel coordinates. -/
def initBallState (initialHeight vx0 vy0 : ℚ) : BallState :=
  { ball_bottom_x := 0 * PIXELS_PER_METER
  , ball_bottom_y := GROUND_Y - initialHeight * PIXELS_PER_METER
  , vx := vx0
  , vy := vy0 }

lemma airborneGuard_false_of_grounded {s : BallState}
    (hy : s.ball_bottom_y = GROUND_Y) (hvx : s.vx = 0) (hvy : s.vy = 0) :
    ¬ airborneGuard s := by
  simp [airborneGuard, hy, hvx, hvy]

lemma frameStep_grounded {s : BallState}
    (hy : s.ball_bottom_y = GROUND_Y) (hvx : s.vx = 0) (hvy : s.vy = 0)
    (dt : ℚ) : frameStep s dt = s := by
  unfold frameStep
  rw [if_neg (airborneGuard_false_of_grounded hy hvx hvy)]

lemma foldl_frameStep_grounded {s : BallState}
    (hy : s.ball_bottom_y = GROUND_Y) (hvx : s.vx = 0) (hvy : s.vy = 0) :
    ∀ dts : List ℚ, List.foldl frameStep s dts = s := by
  intro dts
  induction dts with
  | nil => rfl
  | cons dt rest ih =>
      rw [List.foldl_cons, frameStep_grounded hy hvx hvy dt, ih]

/-- C1: for every airborne state and every elapsed-time increment dt > 0,
one integration step (that does not cross the ground) is semi-implicit
Euler: the new vertical velocity is old_vy + gravity·dt exactly, and the
positions advance using the updated vertical velocity; in pixel space this
is the world rule scaled by PIXELS_PER_METER with the y axis flipped, and
converting the pixel state back to world meters gives new_x = old_x + vx·dt
and new_y = old_y + new_vy·dt. -/
theorem C1_airborne_step_semi_implicit_euler (s : BallState) (dt : ℚ)
    (hdt : 0 < dt) (hair : airborneGuard s)
    (hnog : s.ball_bottom_y - (s.vy + Gravity * dt) * dt * PIXELS_PER_METER < GROUND_Y) :
    frameStep s dt =
      { ball_bottom_x := s.ball_bottom_x + s.vx * dt * PIXELS_PER_METER
      , ball_bottom_y := s.ball_bottom_y - (s.vy + Gravity * dt) * dt * PIXELS_PER_METER
      , vx := s.vx
      , vy := s.vy + Gravity * dt } ∧
    worldX (frameStep s dt) = worldX s + s.vx * dt ∧
    worldY (frameStep s dt) = worldY s + (s.vy + Gravity * dt) * dt := by
  have hstep : frameStep s dt =
      { ball_bottom_x := s.ball_bottom_x + s.vx * dt * PIXELS_PER_METER
      , ball_bottom_y := s.ball_bottom_y - (s.vy + Gravity * dt) * dt * PIXELS_PER_METER
      , vx := s.vx
      , vy := s.vy + Gravity * dt } := by
    unfold frameStep
    rw [if_pos hair, if_neg (not_le.mpr hnog)]
  refine ⟨hstep, ?_, ?_⟩
  · rw [hstep]
    unfold worldX PIXELS_PER_METER HEIGHT
    push_cast
    ring
  · rw [hstep]
    unfold worldY PIXELS_PER_METER HEIGHT
    push_cast
    ring

/-- Witness for C1 at the concrete airborne state with pixel position
(0, 400), velocity (3, 2) m/s and dt = 1/10 s. -/
theorem C1_witness :
    (0 : ℚ) < 1/10 ∧
    airborneGuard ⟨0, 400, 3, 2⟩ ∧
    ((⟨0, 400, 3, 2⟩ : BallState).ball_bottom_y -
      ((⟨0, 400, 3, 2⟩ : BallState).vy + Gravity * (1/10)) * (1/10) * PIXELS_PER_METER
        < GROUND_Y) ∧
    (frameStep ⟨0, 400, 3, 2⟩ (1/10) =
      { ball_bottom_x := (⟨0, 400, 3, 2⟩ : BallState).ball_bottom_x +
          (⟨0, 400, 3, 2⟩ : BallState).vx * (1/10) * PIXELS_PER_METER
      , ball_bottom_y := (⟨0, 400, 3, 2⟩ : BallState).ball_bottom_y -
          ((⟨0, 400, 3, 2⟩ : BallState).vy + Gravity * (1/10)) * (1/10) * PIXELS_PER_METER
      , vx := (⟨0, 400, 3, 2⟩ : BallState).vx
      , vy := (⟨0, 400, 3, 2⟩ : BallState).vy + Gravity * (1/10) } ∧
    worldX (frameStep ⟨0, 400, 3, 2⟩ (1/10)) =
      worldX ⟨0, 400, 3, 2⟩ + (⟨0, 400, 3, 2⟩ : BallState).vx * (1/10) ∧
    worldY (frameStep ⟨0, 400, 3, 2⟩ (1/10)) =
      worldY ⟨0, 400, 3, 2⟩ +
        ((⟨0, 400, 3, 2⟩ : BallState).vy + Gravity * (1/10)) * (1/10)) := by
  have h1 : (0 : ℚ) < 1/10 := by norm_num
  have h2 : airborneGuard ⟨0, 400, 3, 2⟩ := by
    unfold airborneGuard GROUND_Y HEIGHT
    norm_num
  have h3 : ((⟨0, 400, 3, 2⟩ : BallState).ball_bottom_y -
      ((⟨0, 400, 3, 2⟩ : BallState).vy + Gravity * (1/10)) * (1/10) * PIXELS_PER_METER
        < GROUND_Y) := by
    unfold Gravity PIXELS_PER_METER GROUND_Y HEIGHT
    norm_num
  exact ⟨h1, h2, h3, C1_airborne_step_semi_implicit_euler ⟨0, 400, 3, 2⟩ (1/10) h1 h2 h3⟩

/-- C2: the integration step whose position update produces a pixel bottom
at or below the ground row (world y ≤ 0) clamps the vertical position to
the ground row exactly (world y = 0), zeroes both velocity components, and
leaves the horizontal position at the value this step produced; afterwards
the airborne guard is false (the state is Grounded). The pixel-space
crossing test is equivalent to the world-space test y ≤ 0. -/
theorem C2_ground_contact_step (s : BallState) (dt : ℚ)
    (hair : airborneGuard s)
    (hg : GROUND_Y ≤ s.ball_bottom_y - (s.vy + Gravity * dt) * dt * PIXELS_PER_METER) :
    frameStep s dt =
      { ball_bottom_x := s.ball_bottom_x + s.vx * dt * PIXELS_PER_METER
      , ball_bottom_y := GROUND_Y
      , vx := 0
      , vy := 0 } ∧
    worldY (frameStep s dt) = 0 ∧
    ¬ airborneGuard (frameStep s dt) ∧
    ((GROUND_Y - (s.ball_bottom_y - (s.vy + Gravity * dt) * dt * PIXELS_PER_METER))
        / PIXELS_PER_METER ≤ 0 ↔
      GROUND_Y ≤ s.ball_bottom_y - (s.vy + Gravity * dt) * dt * PIXELS_PER_METER) := by
  have hstep : frameStep s dt =
      { ball_bottom_x := s.ball_bottom_x + s.vx * dt * PIXELS_PER_METER
      , ball_bottom_y := GROUND_Y
      , vx := 0
      , vy := 0 } := by
    unfold frameStep
    rw [if_pos hair, if_pos hg]
  have hppm : (0 : ℚ) < PIXELS_PER_METER := by
    unfold PIXELS_PER_METER HEIGHT
    norm_num
  refine ⟨hstep, ?_, ?_, ?_⟩
  · rw [hstep]
    unfold worldY
    simp
  · rw [hstep]
    exact airborneGuard_false_of_grounded rfl rfl rfl
  · constructor
    · intro h
      nlinarith [div_nonpos_iff.mp h]
    · intro h
      apply div_nonpos_of_nonpos_of_nonneg (by linarith) (le_of_lt hppm)

/-- Witness for C2 at the concrete airborne state with pixel position
(0, 499), velocity (0, -100) m/s and dt = 1/10 s, whose raw position update
crosses the ground row. -/
theorem C2_witness :
    airborneGuard ⟨0, 499, 0, -100⟩ ∧
    (GROUND_Y ≤ (⟨0, 499, 0, -100⟩ : BallState).ball_bottom_y -
      ((⟨0, 499, 0, -100⟩ : BallState).vy + Gravity * (1/10)) * (1/10) * PIXELS_PER_METER) ∧
    (frameStep ⟨0, 499, 0, -100⟩ (1/10) =
      { ball_bottom_x := (⟨0, 499, 0, -100⟩ : BallState).ball_bottom_x +
          (⟨0, 499, 0, -100⟩ : BallState).vx * (1/10) * PIXELS_PER_METER
      , ball_bottom_y := GROUND_Y
      , vx := 0
      , vy := 0 } ∧
    worldY (frameStep ⟨0, 499, 0, -100⟩ (1/10)) = 0 ∧
    ¬ airborneGuard (frameStep ⟨0, 499, 0, -100⟩ (1/10)) ∧
    ((GROUND_Y - ((⟨0, 499, 0, -100⟩ : BallState).ball_bottom_y -
        ((⟨0, 499, 0, -100⟩ : BallState).vy + Gravity * (1/10)) * (1/10) * PIXELS_PER_METER))
          / PIXELS_PER_METER ≤ 0 ↔
      GROUND_Y ≤ (⟨0, 499, 0, -100⟩ : BallState).ball_bottom_y -
        ((⟨0, 499, 0, -100⟩ : BallState).vy + Gravity * (1/10)) * (1/10) * PIXELS_PER_METER)) := by
  have h1 : airborneGuard ⟨0, 499, 0, -100⟩ := by
    unfold airborneGuard GROUND_Y HEIGHT
    norm_num
  have h2 : (GROUND_Y ≤ (⟨0, 499, 0, -100⟩ : BallState).ball_bottom_y -
      ((⟨0, 499, 0, -100⟩ : BallState).vy + Gravity * (1/10)) * (1/10) * PIXELS_PER_METER) := by
    unfold Gravity PIXELS_PER_METER GROUND_Y HEIGHT
    norm_num
  exact ⟨h1, h2, C2_ground_contact_step ⟨0, 499, 0, -100⟩ (1/10) h1 h2⟩

/-- C3: Grounded is terminal: for every state resting exactly on the ground
row with both velocity components zero, the airborne guard is false and any
sequence of further elapsed-time increments leaves all four state fields
unchanged — the loop never re-enters the airborne branch and no further
motion occurs. -/
theorem C3_grounded_is_terminal (s : BallState)
    (hy : s.ball_bottom_y = GROUND_Y) (hvx : s.vx = 0) (hvy : s.vy = 0) :
    ¬ airborneGuard s ∧ ∀ dts : List ℚ, List.foldl frameStep s dts = s :=
  ⟨airborneGuard_false_of_grounded hy hvx hvy, foldl_frameStep_grounded hy hvx hvy⟩

/-- Witness for C3 at the concrete grounded state with pixel position
(7, GROUND_Y) and three further frame increments. -/
theorem C3_witness :
    (⟨7, 500, 0, 0⟩ : BallState).ball_bottom_y = GROUND_Y ∧
    (⟨7, 500, 0, 0⟩ : BallState).vx = 0 ∧
    (⟨7, 500, 0, 0⟩ : BallState).vy = 0 ∧
    (¬ airborneGuard ⟨7, 500, 0, 0⟩ ∧
      ∀ dts : List ℚ, List.foldl frameStep ⟨7, 500, 0, 0⟩ dts = ⟨7, 500, 0, 0⟩) := by
  have hy : (⟨7, 500, 0, 0⟩ : BallState).ball_bottom_y = GROUND_Y := by
    unfold GROUND_Y HEIGHT
    norm_num
  exact ⟨hy, rfl, rfl, C3_grounded_is_terminal ⟨7, 500, 0, 0⟩ hy rfl rfl⟩

/-- C5: the initial state with initial height 0 and zero velocity components
is Grounded at time 0: the airborne guard (evaluated before each physics
update) is already false, so zero integration steps are applied and any
sequence of elapsed-time increments produces no motion at all. -/
theorem C5_zero_initial_state_grounded :
    ¬ airborneGuard (initBallState 0 0 0) ∧
    ∀ dts : List ℚ, List.foldl frameStep (initBallState 0 0 0) dts = initBallState 0 0 0 := by
  have hy : (initBallState 0 0 0).ball_bottom_y = GROUND_Y := by
    unfold initBallState
    norm_num
  exact ⟨airborneGuard_false_of_grounded hy rfl rfl, foldl_frameStep_grounded hy rfl rfl⟩

/-! config.py: launch configuration. The launch angle is held in degrees and
converted to radians before the cosine and sine are applied. -/

/-- Initial launch height in meters (config.py: `InitialHeight = 0`). -/
def InitialHeight : ℚ := 0

/-- Launch angle in degrees (config.py: `Theta = 45`). -/
noncomputable def Theta : ℝ := 45

/-- Launch speed in m/s (config.py: `Velocity = 9`). -/
noncomputable def Velocity : ℝ := 9

/-- Degree-to-radian conversion, modelling `math.radians`. -/
noncomputable def radians (degrees : ℝ) : ℝ := degrees * Real.pi / 180

/-- The horizontal initial-velocity formula of config.py line 9:
`math.cos(math.radians(Theta)) * Velocity`, for an arbitrary launch
configuration. -/
noncomputable def initVelocityX (theta velocity : ℝ) : ℝ :=
  Real.cos (radians theta) * velocity

/-- The vertical initial-velocity formula of config.py line 10:
`math.sin(math.radians(Theta)) * Velocity`, for an arbitrary launch
configuration. -/
noncomputable def initVelocityY (theta velocity : ℝ) : ℝ :=
  Real.sin (radians theta) * velocity

/-- config.py line 9: `initialVelocityX = math.cos(math.radians(Theta)) * Velocity`. -/
noncomputable def initialVelocityX : ℝ := initVelocityX Theta Velocity

/-- config.py line 10: `initialVelocityY = math.sin(math.radians(Theta)) * Velocity`. -/
noncomputable def initialVelocityY : ℝ := initVelocityY Theta Velocity

/-- C8: the derived initial velocity components are launch_speed·cos(angle)
and launch_speed·sin(angle), with the angle supplied in degrees and
converted to radians before the cosine and sine are applied; at the
repository's configuration (angle 45 degrees, speed 9) the two components
are equal and lie within 0.01 of 6.36 m/s. -/
theorem C8_initial_velocity_components :
    (∀ theta velocity : ℝ,
        initVelocityX theta velocity = velocity * Real.cos (theta * Real.pi / 180) ∧
        initVelocityY theta velocity = velocity * Real.sin (theta * Real.pi / 180)) ∧
    initialVelocityX = initialVelocityY ∧
    |initialVelocityX - 636/100| < 1/100 := by
  have hrad : radians Theta = Real.pi / 4 := by
    unfold radians Theta
    ring
  have hx : initialVelocityX = Real.sqrt 2 / 2 * 9 := by
    unfold initialVelocityX initVelocityX Velocity
    rw [hrad, Real.cos_pi_div_four]
  have hy : initialVelocityY = Real.sqrt 2 / 2 * 9 := by
    unfold initialVelocityY initVelocityY Velocity
    rw [hrad, Real.sin_pi_div_four]
  refine ⟨?_, ?_, ?_⟩
  · intro theta velocity
    constructor
    · unfold initVelocityX radians
      ring
    · unfold initVelocityY radians
      ring
  · rw [hx, hy]
  · rw [hx]
    have hs : Real.sqrt 2 ^ 2 = 2 := Real.sq_sqrt (by norm_num)
    have hs0 : (0 : ℝ) ≤ Real.sqrt 2 := Real.sqrt_nonneg 2
    rw [abs_lt]
    constructor
    · nlinarith [sq_nonneg (Real.sqrt 2 - 1415/1000)]
    · nlinarith [sq_nonneg (Real.sqrt 2 - 1414/1000)]

/-! logger.py: the PhysicsLogger CSV recorder.

Filenames are modelled as lists of characters and the file system as a map
from filenames to file contents; a stored CSV file is a header row of
column names together with its parsed numeric data rows. The external
`datetime.now().strftime` call is modelled by an explicit zero-padded digit
rendering of a DateTime value. -/

/-- A calendar timestamp, standing in for `datetime.now()`. -/
structure DateTime where
  year : Nat
  month : Nat
  day : Nat
  hour : Nat
  minute : Nat
  second : Nat
  deriving DecidableEq

/-- The decimal digit character for the last decimal digit of a number. -/
def digitChar (n : Nat) : Char := Char.ofNat (48 + n % 10)

/-- Zero-padded two-digit decimal rendering, as strftime's %m, %d, %H, %M
and %S directives produce for in-range field values. -/
def pad2 (n : Nat) : List Char := [digitChar (n / 10), digitChar n]

/-- Zero-padded four-digit decimal rendering, as strftime's %Y directive
produces for in-range years. -/
def pad4 (n : Nat) : List Char :=
  [digitChar (n / 1000), digitChar (n / 100), digitChar (n / 10), digitChar n]

/-- Model of `datetime.now().strftime("%Y%m%d_%H%M%S")` (logger.py line 13)
for in-range datetime values. -/
def strftimeCompact (d : DateTime) : List Char :=
  pad4 d.year ++ pad2 d.month ++ pad2 d.day ++ ['_'] ++
    pad2 d.hour ++ pad2 d.minute ++ pad2 d.second

/-- Filename resolution in PhysicsLogger.__init__ (logger.py lines 12-16):
a missing filename argument is replaced by a timestamped generated name;
a caller-supplied filename is used verbatim. -/
def resolveFilename (filename : Option (List Char)) (now : DateTime) : List Char :=
  match filename with
  | none => (String.toList "projectile_data_") ++ strftimeCompact now ++ (String.toList ".csv")
  | some f => f

/-- One logged sample: the five CSV column values of logger.py. -/
structure LogRow where
  time : ℚ
  x_pos : ℚ
  y_pos : ℚ
  vel_x : ℚ
  vel_y : ℚ
  deriving DecidableEq

/-- The CSV header columns (logger.py line 20). -/
def headers : List String :=
  ["Time", "X_Position", "Y_Position", "Velocity_X", "Velocity_Y"]

/-- A stored CSV file: its header row and its parsed data rows. -/
structure CsvFile where
  header : List String
  rows : List LogRow
  deriving DecidableEq

/-- The file system: a map from filenames to file contents. -/
abbrev FileSys : Type := List Char → Option CsvFile

/-- Opening a file in write mode and writing `content`: any previous
content under that name is replaced. -/
def writeFile (fs : FileSys) (name : List Char) (content : CsvFile) : FileSys :=
  fun n => if n = name then some content else fs n

/-- Appending one row in append mode (logger.py lines 43-45): the row is
added to an existing file's rows, or a headerless file holding just the row
is created when the file is missing. -/
def appendRow (fs : FileSys) (name : List Char) (row : LogRow) : FileSys :=
  fun n =>
    if n = name then
      match fs n with
      | some c => some { header := c.header, rows := c.rows ++ [row] }
      | none => some { header := [], rows := [row] }
    else fs n

/-- The in-memory state of a PhysicsLogger: its resolved filename and its
buffered data list (logger.py lines 18-19). -/
structure PhysicsLogger where
  filename : List Char
  data : List LogRow

/-- PhysicsLogger.__init__ (logger.py lines 6-24): resolve the filename,
start with an empty in-memory data list, and create the CSV file in write
mode containing exactly the header row. -/
def PhysicsLogger.init (fs : FileSys) (filename : Option (List Char)) (now : DateTime) :
    PhysicsLogger × FileSys :=
  let fn := resolveFilename filename now
  ({ filename := fn, data := [] }, writeFile fs fn { header := headers, rows := [] })

/-- PhysicsLogger.log_data (logger.py lines 29-45): append exactly one
entry to the in-memory list and immediately to the CSV file. -/
def PhysicsLogger.log_data (lg : PhysicsLogger) (fs : FileSys)
    (time x_pos y_pos vel_x vel_y : ℚ) : PhysicsLogger × FileSys :=
  let row : LogRow :=
    { time := time, x_pos := x_pos, y_pos := y_pos, vel_x := vel_x, vel_y := vel_y }
  ({ filename := lg.filename, data := lg.data ++ [row] }, appendRow fs lg.filename row)

/-- PhysicsLogger.get_data_count (logger.py lines 47-49). -/
def PhysicsLogger.get_data_count (lg : PhysicsLogger) : Nat := lg.data.length

/-- What PhysicsLogger.save_final prints (logger.py lines 51-58): the entry
count, and for a non-empty data list a time range. -/
structure FinalReport where
  count : Nat
  timeRange : Option (ℚ × ℚ)
  deriving DecidableEq

/-- PhysicsLogger.save_final (logger.py lines 51-58): report the number of
entries and, when the data list is non-empty, the pair of the first and
last entries' time values (`self.data[0][0]` and `self.data[-1][0]`). -/
def PhysicsLogger.save_final (lg : PhysicsLogger) : FinalReport :=
  { count := lg.data.length
  , timeRange :=
      match lg.data.head?, lg.data.getLast? with
      | some first, some last => some (first.time, last.time)
      | _, _ => none }

/-- PhysicsLogger.clear_data (logger.py lines 60-65): empty the in-memory
list and rewrite the CSV file in write mode with just the header row. -/
def PhysicsLogger.clear_data (lg : PhysicsLogger) (fs : FileSys) :
    PhysicsLogger × FileSys :=
  ({ filename := lg.filename, data := [] },
    writeFile fs lg.filename { header := headers, rows := [] })

/-- The csv-suffix enforcement in graph.py's get_csv_filename_from_user
(line 180): `filename if filename.endswith('.csv') else filename + '.csv'`. -/
def ensure_csv (filename : List Char) : List Char :=
  if (String.toList ".csv").isSuffixOf filename then filename
  else filename ++ (String.toList ".csv")

/-- A filename of the shape `projectile_data_<YYYYMMDD_HHMMSS>.csv`: the
fixed stem, eight digits, an underscore, six digits, and the .csv suffix. -/
def matchesAutoPattern (name : List Char) : Prop :=
  ∃ dpart tpart : List Char,
    name = (String.toList "projectile_data_") ++ dpart ++ '_' :: tpart ++
      (String.toList ".csv") ∧
    dpart.length = 8 ∧ tpart.length = 6 ∧
    (∀ c ∈ dpart, c.isDigit = true) ∧ (∀ c ∈ tpart, c.isDigit = true)

lemma digitChar_isDigit (n : Nat) : (digitChar n).isDigit = true := by
  have h : n % 10 < 10 := Nat.mod_lt _ (by norm_num)
  have hall : ∀ k : Fin 10, (Char.ofNat (48 + (k : Nat))).isDigit = true := by decide
  exact hall ⟨n % 10, h⟩

lemma pad2_digits (n : Nat) : ∀ c ∈ pad2 n, c.isDigit = true := by
  intro c hc
  simp [pad2] at hc
  rcases hc with h | h <;> subst h <;> exact digitChar_isDigit _

lemma pad4_digits (n : Nat) : ∀ c ∈ pad4 n, c.isDigit = true := by
  intro c hc
  simp [pad4] at hc
  rcases hc with h | h | h | h <;> subst h <;> exact digitChar_isDigit _

/-- C6 counterexample: constructing the sink with the caller-supplied name
"data" stores the name verbatim; no .csv suffix is appended, contrary to
the claim that the suffix is enforced at sink construction. -/
theorem C6_counterexample :
    (PhysicsLogger.init (fun _ => none) (some (String.toList "data"))
        ⟨2025, 10, 12, 3, 4, 5⟩).1.filename = String.toList "data" ∧
    (String.toList ".csv").isSuffixOf (String.toList "data") = false :=
  ⟨rfl, by decide⟩

/-- C6 (amended): an auto-generated sink filename matches
`projectile_data_<YYYYMMDD_HHMMSS>.csv`; a caller-supplied sink filename is
used verbatim by the logger; the .csv-suffix enforcement lives in the
analysis-input prompt (graph.py's get_csv_filename_from_user), which
returns a name ending in .csv, appending the suffix exactly when absent. -/
theorem C6_filename_resolution :
    (∀ now : DateTime, matchesAutoPattern (resolveFilename none now)) ∧
    (∀ (f : List Char) (now : DateTime), resolveFilename (some f) now = f) ∧
    (∀ f : List Char,
      (String.toList ".csv").isSuffixOf (ensure_csv f) = true ∧
      ((String.toList ".csv").isSuffixOf f = true → ensure_csv f = f) ∧
      ((String.toList ".csv").isSuffixOf f = false →
        ensure_csv f = f ++ (String.toList ".csv"))) := by
  refine ⟨?_, fun f now => rfl, ?_⟩
  · intro now
    refine ⟨pad4 now.year ++ pad2 now.month ++ pad2 now.day,
            pad2 now.hour ++ pad2 now.minute ++ pad2 now.second, ?_, ?_, ?_, ?_, ?_⟩
    · unfold resolveFilename strftimeCompact
      simp
    · simp [pad4, pad2]
    · simp [pad2]
    · intro c hc
      rcases List.mem_append.mp hc with h | h
      · rcases List.mem_append.mp h with h2 | h2
        · exact pad4_digits _ c h2
        · exact pad2_digits _ c h2
      · exact pad2_digits _ c h
    · intro c hc
      rcases List.mem_append.mp hc with h | h
      · rcases List.mem_append.mp h with h2 | h2
        · exact pad2_digits _ c h2
        · exact pad2_digits _ c h2
      · exact pad2_digits _ c h
  · intro f
    by_cases hb : (String.toList ".csv").isSuffixOf f = true
    · have hf : ensure_csv f = f := by
        unfold ensure_csv
        rw [if_pos hb]
      refine ⟨by rw [hf]; exact hb, fun _ => hf, fun hfalse => ?_⟩
      rw [hb] at hfalse
      cases hfalse
    · have hf : ensure_csv f = f ++ (String.toList ".csv") := by
        unfold ensure_csv
        rw [if_neg hb]
      refine ⟨?_, fun ht => absurd ht hb, fun _ => hf⟩
      rw [hf]
      exact List.isSuffixOf_iff_suffix.mpr (List.suffix_append _ _)

lemma sorted_head_le (d : List LogRow)
    (hp : List.Pairwise (fun a b : LogRow => a.time ≤ b.time) d) (hne : d ≠ []) :
    ∀ r ∈ d, (d.head hne).time ≤ r.time := by
  cases d with
  | nil => exact absurd rfl hne
  | cons a t =>
    intro r hr
    simp only [List.head_cons]
    rcases List.mem_cons.mp hr with h | h
    · subst h
      exact le_refl _
    · exact (List.pairwise_cons.mp hp).1 r h

lemma sorted_le_getLast :
    ∀ (d : List LogRow), List.Pairwise (fun a b : LogRow => a.time ≤ b.time) d →
      ∀ (hne : d ≠ []), ∀ r ∈ d, r.time ≤ (d.getLast hne).time := by
  intro d
  induction d with
  | nil => intro _ hne; exact absurd rfl hne
  | cons a t ih =>
    intro hp hne r hr
    cases t with
    | nil =>
      have hra : r = a := by simpa using hr
      subst hra
      simp
    | cons b t2 =>
      rw [List.getLast_cons (by simp : b :: t2 ≠ [])]
      rcases List.mem_cons.mp hr with h | h
      · subst h
        exact (List.pairwise_cons.mp hp).1 _ (List.getLast_mem (by simp))
      · exact ih (List.pairwise_cons.mp hp).2 (by simp) r h

/-- C7 counterexample: recording two entries with decreasing times 2, 1
makes save_final report the span (2, 1) — first and last entry — while the
minimum and maximum of the recorded times are 1 and 2, so the reported span
is not the (min, max) pair the claim requires. -/
theorem C7_counterexample :
    (PhysicsLogger.save_final
      { filename := String.toList "a.csv"
      , data := [{ time := 2, x_pos := 0, y_pos := 0, vel_x := 0, vel_y := 0 },
                 { time := 1, x_pos := 0, y_pos := 0, vel_x := 0, vel_y := 0 }] }).timeRange
      = some (2, 1) ∧
    (List.map LogRow.time
      [({ time := 2, x_pos := 0, y_pos := 0, vel_x := 0, vel_y := 0 } : LogRow),
       { time := 1, x_pos := 0, y_pos := 0, vel_x := 0, vel_y := 0 }]).min? = some 1 ∧
    (List.map LogRow.time
      [({ time := 2, x_pos := 0, y_pos := 0, vel_x := 0, vel_y := 0 } : LogRow),
       { time := 1, x_pos := 0, y_pos := 0, vel_x := 0, vel_y := 0 }]).max? = some 2 ∧
    ((2 : ℚ), (1 : ℚ)) ≠ ((1 : ℚ), (2 : ℚ)) :=
  ⟨rfl, by decide, by decide, by decide⟩

/-- C7 (amended): on finalize the recorder reports the count of entries and
the time span as the first and last recorded entries' time values; when the
entries were recorded in nondecreasing time order these are the minimum and
maximum recorded times. The recorder appends entries in call order and does
not enforce or re-sort ordering. -/
theorem C7_finalize_first_last (fn : List Char) (d : List LogRow) (hne : d ≠ []) :
    (PhysicsLogger.save_final { filename := fn, data := d }).count = d.length ∧
    (PhysicsLogger.save_final { filename := fn, data := d }).timeRange =
      some ((d.head hne).time, (d.getLast hne).time) ∧
    (List.Pairwise (fun a b : LogRow => a.time ≤ b.time) d →
      ∀ r ∈ d, (d.head hne).time ≤ r.time ∧ r.time ≤ (d.getLast hne).time) ∧
    (∀ (lg : PhysicsLogger) (fs : FileSys) (t x y vx vy : ℚ),
      (lg.log_data fs t x y vx vy).1.data =
        lg.data ++ [{ time := t, x_pos := x, y_pos := y, vel_x := vx, vel_y := vy }]) := by
  refine ⟨rfl, ?_, ?_, ?_⟩
  · unfold PhysicsLogger.save_final
    simp [List.head?_eq_head hne, List.getLast?_eq_getLast d hne]
  · intro hp r hr
    exact ⟨sorted_head_le d hp hne r hr, sorted_le_getLast d hp hne r hr⟩
  · intro lg fs t x y vx vy
    rfl

/-- Witness for C7 at a concrete two-entry recording with increasing times
1 then 2. -/
theorem C7_witness :
    (PhysicsLogger.save_final
      { filename := String.toList "a.csv"
      , data := [{ time := 1, x_pos := 0, y_pos := 0, vel_x := 0, vel_y := 0 },
                 { time := 2, x_pos := 5, y_pos := 0, vel_x := 0, vel_y := 0 }] }).count = 2 ∧
    (PhysicsLogger.save_final
      { filename := String.toList "a.csv"
      , data := [{ time := 1, x_pos := 0, y_pos := 0, vel_x := 0, vel_y := 0 },
                 { time := 2, x_pos := 5, y_pos := 0, vel_x := 0, vel_y := 0 }] }).timeRange
      = some (1, 2) := by
  have h := C7_finalize_first_last (String.toList "a.csv")
    [{ time := 1, x_pos := 0, y_pos := 0, vel_x := 0, vel_y := 0 },
     { time := 2, x_pos := 5, y_pos := 0, vel_x := 0, vel_y := 0 }] (by simp)
  exact ⟨h.1, h.2.1⟩

/-- C10: constructing the recorder — and likewise clear_data — opens the
target file in write mode, replacing any previous contents: afterwards the
file holds exactly the header row Time,X_Position,Y_Position,Velocity_X,
Velocity_Y and no data rows, and the in-memory entry list is empty. -/
theorem C10_write_mode_reinitializes (fs : FileSys) (filename : Option (List Char))
    (now : DateTime) :
    (PhysicsLogger.init fs filename now).2 (resolveFilename filename now) =
        some { header := headers, rows := [] } ∧
    (PhysicsLogger.init fs filename now).1.data = [] ∧
    (PhysicsLogger.init fs filename now).1.filename = resolveFilename filename now ∧
    (∀ (lg : PhysicsLogger) (fs2 : FileSys),
        (lg.clear_data fs2).2 lg.filename = some { header := headers, rows := [] } ∧
        (lg.clear_data fs2).1.data = [] ∧
        (lg.clear_data fs2).1.filename = lg.filename) ∧
    String.intercalate "," headers = "Time,X_Position,Y_Position,Velocity_X,Velocity_Y" := by
  refine ⟨?_, rfl, rfl, ?_, rfl⟩
  · simp [PhysicsLogger.init, writeFile]
  · intro lg fs2
    exact ⟨by simp [PhysicsLogger.clear_data, writeFile], rfl, rfl⟩

/-! graph.py: the analysis stage. It loads a persisted CSV file, derives
the kinetic-energy and displacement series, and plots/prints them. Loaded
rows reuse the LogRow schema (the five columns the logger writes). -/

/-- graph.py lines 28-30: `calculate_kinetic_energy(vx, vy, mass=1.0)`
returns `0.5 * mass * (vx**2 + vy**2)`. -/
noncomputable def calculate_kinetic_energy (vx vy : ℝ) (mass : ℝ := 1) : ℝ :=
  0.5 * mass * (vx ^ 2 + vy ^ 2)

/-- graph.py lines 32-34: `calculate_displacement(x, y, initial_x,
initial_y)` returns `np.sqrt((x - initial_x)**2 + (y - initial_y)**2)`. -/
noncomputable def calculate_displacement (x y initial_x initial_y : ℝ) : ℝ :=
  Real.sqrt ((x - initial_x) ^ 2 + (y - initial_y) ^ 2)

/-- Model of `pd.read_csv` on the file-system model: a missing file raises
FileNotFoundError; an existing file is returned as a data frame. -/
def read_csv (fs : FileSys) (csv_filename : List Char) : Except String CsvFile :=
  match fs csv_filename with
  | none => .error "FileNotFoundError"
  | some c => .ok c

/-- graph.py load_data (lines 36-47): every exception raised by read_csv is
caught and reported, and the function returns None. -/
def load_data (fs : FileSys) (csv_filename : List Char) : Option CsvFile :=
  match read_csv fs csv_filename with
  | .ok df => some df
  | .error _ => none

/-- How one call of graph.py's generate_physics_graphs ends: an early
return after load_data reported failure, an uncaught exception, or the
derived kinetic-energy and displacement series. -/
inductive GraphOutcome where
  | noData : GraphOutcome
  | raised : String → GraphOutcome
  | analyzed : List ℝ → List ℝ → GraphOutcome

/-- The kinetic-energy series built at graph.py line 87 with the default
mass argument: `[calculate_kinetic_energy(vx[i], vy[i]) for i in range(len(vx))]`. -/
noncomputable def kinetic_energy_series (rows : List LogRow) : List ℝ :=
  rows.map fun r => calculate_kinetic_energy (r.vel_x : ℝ) (r.vel_y : ℝ)

/-- The displacement series built at graph.py line 88, measured from the
first sample: `[calculate_displacement(x_pos[i], y_pos[i], initial_x, initial_y) ...]`. -/
noncomputable def displacement_series (first : LogRow) (rows : List LogRow) : List ℝ :=
  rows.map fun r =>
    calculate_displacement (r.x_pos : ℝ) (r.y_pos : ℝ) (first.x_pos : ℝ) (first.y_pos : ℝ)

/-- graph.py generate_physics_graphs (lines 76-88): when load_data returns
None the function returns at once, having computed nothing; otherwise it
reads `x_pos[0], y_pos[0]` as the initial position — indexing that raises
IndexError when the loaded frame has zero rows — and builds the
kinetic-energy and displacement series from the rows. -/
noncomputable def generate_physics_graphs (fs : FileSys) (csv_filename : List Char) :
    GraphOutcome :=
  match load_data fs csv_filename with
  | none => .noData
  | some df =>
      match df.rows with
      | [] => .raised "IndexError"
      | first :: rest =>
          .analyzed (kinetic_energy_series (first :: rest))
            (displacement_series first (first :: rest))

/-- C4: a missing trajectory file is reported and no further computation is
performed (for every filename, on the empty file system the outcome is the
early no-data return); but on an empty dataset — a stored CSV holding only
the header row and zero data rows — generate_physics_graphs raises
IndexError from indexing the first element, instead of reporting a no-data
condition as the claim requires. -/
theorem C4_missing_ok_empty_raises :
    (∀ name : List Char, generate_physics_graphs (fun _ => none) name = GraphOutcome.noData) ∧
    generate_physics_graphs
        (writeFile (fun _ => none) (String.toList "empty.csv")
          { header := headers, rows := [] })
        (String.toList "empty.csv")
      = GraphOutcome.raised "IndexError" := by
  constructor
  · intro name
    rfl
  · have hfs : writeFile (fun _ => none) (String.toList "empty.csv")
        { header := headers, rows := [] } (String.toList "empty.csv")
        = some { header := headers, rows := [] } := by
      simp [writeFile]
    unfold generate_physics_graphs load_data read_csv
    rw [hfs]

/-- C9: for every loaded trajectory, the kinetic-energy series applies
0.5·mass·(vx²+vy²) with the default mass 1.0 to every sample, and the
displacement series is the Euclidean distance — the distance in the complex
plane — between each sample's position and the first sample's position;
the first sample's displacement is exactly 0; and generate_physics_graphs
produces exactly these two series for the stored rows. -/
theorem C9_derived_metrics (first : LogRow) (rest : List LogRow) (fs : FileSys)
    (name : List Char)
    (hfs : fs name = some { header := headers, rows := first :: rest }) :
    generate_physics_graphs fs name =
      GraphOutcome.analyzed (kinetic_energy_series (first :: rest))
        (displacement_series first (first :: rest)) ∧
    kinetic_energy_series (first :: rest) =
      (first :: rest).map (fun r => 0.5 * 1 * ((r.vel_x : ℝ) ^ 2 + (r.vel_y : ℝ) ^ 2)) ∧
    (∀ x y ix iy : ℝ,
      calculate_displacement x y ix iy = dist (⟨x, y⟩ : ℂ) (⟨ix, iy⟩ : ℂ)) ∧
    (displacement_series first (first :: rest)).head? = some 0 := by
  refine ⟨?_, ?_, ?_, ?_⟩
  · unfold generate_physics_graphs load_data read_csv
    rw [hfs]
  · simp [kinetic_energy_series, calculate_kinetic_energy]
  · intro x y ix iy
    rw [Complex.dist_eq, Complex.abs_apply]
    unfold calculate_displacement
    have hsub : (⟨x, y⟩ : ℂ) - ⟨ix, iy⟩ = ⟨x - ix, y - iy⟩ := by
      apply Complex.ext <;> simp
    rw [hsub, Complex.normSq_mk]
    congr 1
    ring
  · have h0 : calculate_displacement (first.x_pos : ℝ) (first.y_pos : ℝ)
        (first.x_pos : ℝ) (first.y_pos : ℝ) = 0 := by
      unfold calculate_displacement
      simp
    simp [displacement_series, h0]

/-- Witness for C9 at a one-sample trajectory with velocity (3, 4) stored
under the name data.csv. -/
theorem C9_witness :
    generate_physics_graphs
        (writeFile (fun _ => none) (String.toList "data.csv")
          { header := headers
          , rows := [{ time := 0, x_pos := 0, y_pos := 0, vel_x := 3, vel_y := 4 }] })
        (String.toList "data.csv")
      = GraphOutcome.analyzed
          (kinetic_energy_series [{ time := 0, x_pos := 0, y_pos := 0, vel_x := 3, vel_y := 4 }])
          (displacement_series { time := 0, x_pos := 0, y_pos := 0, vel_x := 3, vel_y := 4 }
            [{ time := 0, x_pos := 0, y_pos := 0, vel_x := 3, vel_y := 4 }]) ∧
    kinetic_energy_series [{ time := 0, x_pos := 0, y_pos := 0, vel_x := 3, vel_y := 4 }] =
      [({ time := 0, x_pos := 0, y_pos := 0, vel_x := 3, vel_y := 4 } : LogRow)].map
        (fun r => 0.5 * 1 * ((r.vel_x : ℝ) ^ 2 + (r.vel_y : ℝ) ^ 2)) ∧
    (∀ x y ix iy : ℝ,
      calculate_displacement x y ix iy = dist (⟨x, y⟩ : ℂ) (⟨ix, iy⟩ : ℂ)) ∧
    (displacement_series { time := 0, x_pos := 0, y_pos := 0, vel_x := 3, vel_y := 4 }
      [{ time := 0, x_pos := 0, y_pos := 0, vel_x := 3, vel_y := 4 }]).head? = some 0 :=
  C9_derived_metrics { time := 0, x_pos := 0, y_pos := 0, vel_x := 3, vel_y := 4 } []
    (writeFile (fun _ => none) (String.toList "data.csv")
      { header := headers
      , rows := [{ time := 0, x_pos := 0, y_pos := 0, vel_x := 3, vel_y := 4 }] })
    (String.toList "data.csv") (by simp [writeFile])

end Projectile
